import Mathlib

/-!
Verification of the falcon register-based bytecode interpreter core
(src/falcon/reval.cc) against its natural-language specification.

The development shallowly embeds the data model and the opcode handlers of
the evaluator: Python objects become an inductive value type, the native
C long becomes an integer constrained to the 64-bit two's complement
range (with explicit wrap-around arithmetic), refcount traffic becomes an
explicit event trace, and the external host value API (PyNumber_*,
PyObject_*, PyIter_Next, ...) is either passed in as a parameter or
modelled from its documented contract.  Fallible handlers return an
explicit outcome type mirroring the throw of RException out of the
dispatch loop (which Evaluator::eval catches, turning it into the NULL
error-sentinel return).
-/

namespace Falcon

/-- A host value (PyObject). `int` is the exact unboxed-integer type
(PyInt, a boxed C long), `list`/`tup` are exact lists and tuples,
`pyNone` is the None singleton, and `obj` stands for any other opaque
host object, distinguished by an id.  A register slot holds `Option PyV`;
`none` is the C NULL sentinel. -/
inductive PyV where
  | int (n : Int)
  | list (elems : List PyV)
  | tup (elems : List PyV)
  | pyNone
  | obj (id : Nat)

/-- A reference-count event on a host value: `retain v` embeds
Py_INCREF(v), `release v` embeds Py_DECREF(v) (and the taken branch of
Py_XDECREF). -/
inductive RcEvent where
  | retain (v : PyV)
  | release (v : PyV)

/-- Py_XDECREF(p): a release event when the pointer is non-null,
nothing when it is NULL. -/
def xdecref (p : Option PyV) : List RcEvent :=
  match p with
  | some v => [RcEvent.release v]
  | none => []

/-- Py_INCREF(p) as applied by the evaluator to a register read.  The
source crashes on a NULL operand; the compiler contract (spec section
6.1, every read register is written on all paths) rules that out, and a
null operand here contributes no event. -/
def increfOpt (p : Option PyV) : List RcEvent :=
  match p with
  | some v => [RcEvent.retain v]
  | none => []

/-- The register file of a frame: slot i holds a strong reference or
the NULL sentinel. -/
def Regs : Type := List (Option PyV)

/-- Read registers[i] (reads are in bounds in the source; out of bounds
defaults to the NULL sentinel here). -/
def rget (regs : Regs) (i : Nat) : Option PyV := List.getD regs i none

/-- Write registers[i] := v. -/
def rset (regs : Regs) (i : Nat) (v : Option PyV) : Regs := List.set regs i v

/-- Outcome of running one opcode handler: `next` carries the updated
state and dispatch continues; `fail` embeds `throw RException(...)`,
which unwinds out of the dispatch loop and makes Evaluator::eval return
the NULL error sentinel to its caller. -/
inductive Outcome (α : Type) where
  | next (a : α)
  | fail

/-- The fixed-format register operands of a RegOp instruction using
three register fields. -/
structure RegOp3 where
  reg_1 : Nat
  reg_2 : Nat
  reg_3 : Nat

/-- The fixed-format register operands of a RegOp instruction using two
register fields. -/
structure RegOp2 where
  reg_1 : Nat
  reg_2 : Nat

/-- Operands of a BranchOp instruction: two register fields and a
branch target.  Labels in the source are byte offsets into the
instruction stream that the compiler guarantees to be instruction
starts; here they are the corresponding instruction indices. -/
structure BranchOpArgs where
  reg_1 : Nat
  reg_2 : Nat
  label : Nat

/-- Operands of a VarRegOp instruction: the 16-bit arg and the
variable-length register-index list op->regs. -/
structure VarRegOpArgs where
  arg : Nat
  regs : List Nat

/-! ## The native long (64-bit two's complement)

reval.cc computes its integer fast paths on C `long` values.  A long is
modelled as the mathematical integer it denotes, constrained to the
range [-2^63, 2^63); its bit pattern is the corresponding natural
number below 2^64. -/

/-- The value range of a C long (LONG_MIN ≤ x ≤ LONG_MAX). -/
def inLong (x : Int) : Prop := -(2:Int)^63 ≤ x ∧ x < 2^63

instance (x : Int) : Decidable (inLong x) := by
  unfold inLong; infer_instance

/-- Bit pattern of a long: the conversion (unsigned long)x, i.e. the
value mod 2^64 (Int.emod, always in [0, 2^64)). -/
def toU (x : Int) : Nat := (x % (2:Int)^64).toNat

/-- Value of a bit pattern read back as a signed long: the conversion
(long)n for n < 2^64, two's complement. -/
def ofU (n : Nat) : Int := if n < 2^63 then (n : Int) else (n : Int) - 2^64

/-- C bitwise xor of two longs, computed on their bit patterns. -/
def lxor (x y : Int) : Int := ofU ((toU x) ^^^ (toU y))

/-- C unsigned-long addition: wraps mod 2^64. -/
def uadd (x y : Nat) : Nat := (x + y) % 2^64
/-- C unsigned-long subtraction: wraps mod 2^64. -/
def usub (x y : Nat) : Nat := (x + (2^64 - y)) % 2^64
/-- C unsigned-long multiplication: wraps mod 2^64. -/
def umul (x y : Nat) : Nat := (x * y) % 2^64
/-- C unsigned-long division (undefined in C for y = 0; such calls do
not occur in the proofs below). -/
def udiv (x y : Nat) : Nat := x / y
/-- C unsigned-long remainder (undefined in C for y = 0; such calls do
not occur in the proofs below). -/
def umod (x y : Nat) : Nat := x % y

/-! ## IntegerOps (reval.cc:211-231)

The _OP macro: both operands must be exactly PyInt, then

    a = PyInt_AS_LONG(w); b = PyInt_AS_LONG(v);
    i = (long) ((unsigned long) a op b);
    if ((i ^ a) < 0 && (i ^ b) < 0) return NULL;
    return PyInt_FromLong(i);

The C expression `(unsigned long) a op b` converts *both* operands to
unsigned long (usual arithmetic conversions), so `uop` below is the
corresponding unsigned operation on bit patterns. -/

/-- Body of the IntegerOps _OP macro (reval.cc:212-225), parameterised
by the unsigned operation `uop` standing for `(unsigned long) a op b`. -/
def intOp (uop : Nat → Nat → Nat) (w v : PyV) : Option PyV :=
  match w, v with
  | PyV.int a, PyV.int b =>
    let i : Int := ofU (uop (toU a) (toU b))
    if lxor i a < 0 ∧ lxor i b < 0 then none
    else some (PyV.int i)
  | _, _ => none

namespace IntegerOps
/-- IntegerOps::add (reval.cc:227). -/
def add (w v : PyV) : Option PyV := intOp uadd w v
/-- IntegerOps::sub (reval.cc:228). -/
def sub (w v : PyV) : Option PyV := intOp usub w v
/-- IntegerOps::mul (reval.cc:229). -/
def mul (w v : PyV) : Option PyV := intOp umul w v
/-- IntegerOps::div (reval.cc:230). -/
def div (w v : PyV) : Option PyV := intOp udiv w v
/-- IntegerOps::mod (reval.cc:231). -/
def mod (w v : PyV) : Option PyV := intOp umod w v
end IntegerOps

/-! ## Generic host arithmetic (external Value API, spec section 6.2)

The generic operators live in the host, not in this repository; they
are modelled from their documented contract. -/

/-- Modelled from the spec: the generic host operator PyNumber_Add on
two exact integers is exact (arbitrary-precision) addition. -/
def genericAdd (a b : Int) : Int := a + b

/-- Modelled from the spec: the generic host operator PyNumber_Divide on
two exact integers is floor division (Python 2 integer division). -/
def genericDivide (a b : Int) : Int := Int.fdiv a b

/-- Modelled from the spec: the generic host operator PyNumber_Remainder
on two exact integers is Python modulo (result takes the divisor's
sign). -/
def genericModulo (a b : Int) : Int := Int.fmod a b

/-- Modelled from the spec: generic host PyNumber_Add lifted to register
operands: on two exact ints it is exact addition (an overflowing result
is a host long, still an integer value here); other operand shapes are
not exercised by the claims and return the null sentinel. -/
def hostAdd (a b : Option PyV) : Option PyV :=
  match a, b with
  | some (PyV.int x), some (PyV.int y) => some (PyV.int (x + y))
  | _, _ => none

/-- Modelled from the spec: the host generic item-get PyObject_GetItem
on an exact list and an exact int applies Python list indexing
(a negative index counts from the end); an out-of-range index raises
IndexError, i.e. returns the null sentinel.  Other operand shapes are
not exercised by the claims and return the null sentinel. -/
def hostGetItem (c k : Option PyV) : Option PyV :=
  match c, k with
  | some (PyV.list l), some (PyV.int i) =>
    let j := if i < 0 then i + l.length else i
    if 0 ≤ j ∧ j < (l.length : Int) then some (List.getD l j.toNat PyV.pyNone)
    else none
  | _, _ => none

/-! ## Opcode handlers (reval.cc)

Each handler gets the operands decoded from the instruction and the
register file, and returns the updated register file together with the
refcount events it performed, in source order.  External Value-API
calls are parameters. -/

/-- Embeds BinaryOp::_eval (reval.cc:316-329), the generic binary
handler (BINARY_OR/XOR/AND/LSHIFT/RSHIFT/TRUE_DIVIDE/FLOOR_DIVIDE and
in-place twins): r3 := ObjF(r1, r2); Py_XDECREF(registers[reg_3]);
registers[reg_3] := r3.  The result of ObjF is stored without a null
check and dispatch continues. -/
def binaryOp (objF : Option PyV → Option PyV → Option PyV)
    (op : RegOp3) (regs : Regs) : Outcome (Regs × List RcEvent) :=
  let r3 := objF (rget regs op.reg_1) (rget regs op.reg_2)
  Outcome.next (rset regs op.reg_3 r3, xdecref (rget regs op.reg_3))

/-- Embeds BinaryOpWithSpecialization::_eval (reval.cc:300-314),
used by BINARY_{ADD,SUBTRACT,MULTIPLY,DIVIDE,MODULO} and in-place
twins: r3 := IntegerF(r1, r2); if null, r3 := ObjF(r1, r2);
Py_XDECREF(registers[reg_3]); registers[reg_3] := r3.  As in the
source, a null result of the fallback is stored and dispatch
continues.  The fast path is applied to non-null register contents
(compiler contract). -/
def binaryOpWithSpecialization
    (integerF : PyV → PyV → Option PyV)
    (objF : Option PyV → Option PyV → Option PyV)
    (op : RegOp3) (regs : Regs) : Outcome (Regs × List RcEvent) :=
  let r1 := rget regs op.reg_1
  let r2 := rget regs op.reg_2
  let fast : Option PyV :=
    match r1, r2 with
    | some w, some v => integerF w v
    | _, _ => none
  let r3 := match fast with
    | some v => some v
    | none => objF r1 r2
  Outcome.next (rset regs op.reg_3 r3, xdecref (rget regs op.reg_3))

/-- Embeds UnaryOp::_eval (reval.cc:331-342): r2 := ObjF(r1);
Py_XDECREF(registers[reg_2]); registers[reg_2] := r2.  The result of
ObjF is stored without a null check and dispatch continues. -/
def unaryOp (objF : Option PyV → Option PyV)
    (op : RegOp2) (regs : Regs) : Outcome (Regs × List RcEvent) :=
  let r2 := objF (rget regs op.reg_1)
  Outcome.next (rset regs op.reg_2 r2, xdecref (rget regs op.reg_2))

/-- Embeds BinaryPower::_eval (reval.cc:355-367):
r3 := PyNumber_Power(registers[reg_1], registers[reg_2], Py_None);
Py_XDECREF(registers[reg_2]);  -- note: reg_2, not reg_3
registers[reg_3] := r3.
The external PyNumber_Power is a parameter. -/
def binaryPower (power : Option PyV → Option PyV → Option PyV)
    (op : RegOp3) (regs : Regs) : Regs × List RcEvent :=
  let r3 := power (rget regs op.reg_1) (rget regs op.reg_2)
  (rset regs op.reg_3 r3, xdecref (rget regs op.reg_2))

/-- The fast path of BinarySubscr::_eval (reval.cc:377-384): an exact
list and an exact int key, with negative-index normalization and a
bounds check, reads the element directly. -/
def subscrFastPath (listv key : Option PyV) : Option PyV :=
  match listv, key with
  | some (PyV.list l), some (PyV.int i) =>
    let j := if i < 0 then i + l.length else i
    if 0 ≤ j ∧ j < (l.length : Int) then some (List.getD l j.toNat PyV.pyNone)
    else none
  | _, _ => none

/-- Embeds BinarySubscr::_eval (reval.cc:369-397): try subscrFastPath,
retaining a hit (Py_INCREF(res)); on a miss the generic
PyObject_GetItem runs (a parameter; it returns an owned reference, no
event).  A null result throws RException; otherwise Py_XDECREF of the
old reg_3, then the store. -/
def binarySubscr (getItem : Option PyV → Option PyV → Option PyV)
    (op : RegOp3) (regs : Regs) : Outcome (Regs × List RcEvent) :=
  let listv := rget regs op.reg_1
  let key := rget regs op.reg_2
  match subscrFastPath listv key with
  | some v =>
    Outcome.next (rset regs op.reg_3 (some v),
      RcEvent.retain v :: xdecref (rget regs op.reg_3))
  | none =>
    match getItem listv key with
    | none => Outcome.fail
    | some v =>
      Outcome.next (rset regs op.reg_3 (some v), xdecref (rget regs op.reg_3))

/-- Embeds LoadFast::_eval (reval.cc:502-510), in source order:
Py_INCREF(registers[reg_1]); Py_XDECREF(registers[reg_2]);
registers[reg_2] := registers[reg_1]. -/
def loadFast (op : RegOp2) (regs : Regs) : Regs × List RcEvent :=
  (rset regs op.reg_2 (rget regs op.reg_1),
    increfOpt (rget regs op.reg_1) ++ xdecref (rget regs op.reg_2))

/-- Embeds StoreFast::_eval (reval.cc:512-520), in source order:
Py_XDECREF(registers[reg_2]); Py_INCREF(registers[reg_1]);
registers[reg_2] := registers[reg_1]. -/
def storeFast (op : RegOp2) (regs : Regs) : Regs × List RcEvent :=
  (rset regs op.reg_2 (rget regs op.reg_1),
    xdecref (rget regs op.reg_2) ++ increfOpt (rget regs op.reg_1))

/-- Result of the host PyIter_Next call (external Value API): the
value, or NULL — which the host uses both for exhaustion and for an
error raised inside the call; in the latter case the host error
indicator is set.  `errorRaised` records that indicator; the handler
below never reads it. -/
structure IterNextRes where
  res : Option PyV
  errorRaised : Bool

/-- Embeds ForIter::_eval (reval.cc:647-661):
r1 := PyIter_Next(registers[reg_1]); if r1: Py_XDECREF(registers[reg_2]);
registers[reg_2] := r1; advance pc; else: pc := label.  The handler
never consults the host error indicator and never throws.  pc is an
instruction index; pc + 1 abstracts *pc += sizeof(BranchOp). -/
def forIter (iterNext : Option PyV → IterNextRes)
    (op : BranchOpArgs) (pc : Nat) (regs : Regs) :
    Outcome ((Nat × Regs) × List RcEvent) :=
  match (iterNext (rget regs op.reg_1)).res with
  | some v =>
    Outcome.next ((pc + 1, rset regs op.reg_2 (some v)),
      xdecref (rget regs op.reg_2))
  | none =>
    Outcome.next ((op.label, regs), [])

/-- Embeds the keyword loop of CallFunction::_eval (reval.cc:610-614):
for (i = na; i < bound; i += 2)
  PyDict_SetItem(kwdict, registers[op->regs[i]], registers[op->regs[i+1]]);
collecting the inserted (key, value) pairs in order.  The source calls
it with bound = nk * 2. -/
def kwLoop (op : VarRegOpArgs) (regs : Regs) (i bound : Nat) :
    List (Option PyV × Option PyV) :=
  if i < bound then
    (rget regs (List.getD op.regs i 0), rget regs (List.getD op.regs (i+1) 0))
      :: kwLoop op regs (i + 2) bound
  else []
termination_by bound - i

/-- The keyword pairs the spec prescribes for CALL_FUNCTION
(spec section 4.2): regs[na .. na+2*nk) are alternating
(keyword-name, value) registers, so the dict holds exactly the nk
pairs (registers[regs[na+2j]], registers[regs[na+2j+1]]) for j < nk.
This definition follows the spec's words, to be compared with the
kwLoop the code runs. -/
def specKwPairs (op : VarRegOpArgs) (regs : Regs) (na nk : Nat) :
    List (Option PyV × Option PyV) :=
  (List.range nk).map (fun j =>
    (rget regs (List.getD op.regs (na + 2*j) 0),
     rget regs (List.getD op.regs (na + 2*j + 1) 0)))

/-- The keyword dict CallFunction builds (reval.cc:607-615): NULL when
nk = 0, otherwise a fresh dict filled by kwLoop with the source's loop
bound nk * 2. -/
def callKwdict (op : VarRegOpArgs) (regs : Regs) (na nk : Nat) :
    Option (List (Option PyV × Option PyV)) :=
  if 0 < nk then some (kwLoop op regs na (nk * 2)) else none

/-- Embeds CallFunction::_eval (reval.cc:585-636).
na := arg & 0xff, nk := (arg >> 8) & 0xff, n := nk*2 + na;
positionals are assembled from registers[op->regs[0..na)] into the
reusable call_args tuple; the keyword dict is built by kwLoop when
nk > 0 (with the source's loop bound nk*2); the external call
(PyCFunction_Call / recursive eval_python / PyObject_Call) is
abstracted as `call` applied to the positional list and the optional
keyword dict.  A null result throws RException; otherwise
Py_XDECREF of the old destination, then the store into
registers[op->regs[n+1]]. -/
def callFunction
    (call : List (Option PyV) → Option (List (Option PyV × Option PyV)) → Option PyV)
    (op : VarRegOpArgs) (regs : Regs) : Outcome Regs :=
  let na := op.arg % 256
  let nk := (op.arg / 256) % 256
  let n := nk * 2 + na
  let args := (List.range na).map (fun i => rget regs (List.getD op.regs i 0))
  match call args (callKwdict op regs na nk) with
  | none => Outcome.fail
  | some res =>
    Outcome.next (rset regs (List.getD op.regs (n+1) 0) (some res))

/-- Embeds BuildTuple::_eval (reval.cc:714-725): t := PyTuple_New(arg);
for i < arg, PyTuple_SET_ITEM(t, i, registers[op->regs[i]]) — SET_ITEM
steals the reference, so no refcount event; then
registers[op->regs[arg]] := t.  The prior occupant of the destination
register is not released, and the source registers are left pointing at
the elements.  Register reads are non-null by the compiler contract;
the impossible null case defaults to pyNone. -/
def buildTuple (op : VarRegOpArgs) (regs : Regs) : Regs × List RcEvent :=
  let elems := (List.range op.arg).map
    (fun i => Option.getD (rget regs (List.getD op.regs i 0)) PyV.pyNone)
  (rset regs (List.getD op.regs op.arg 0) (some (PyV.tup elems)), [])

/-- Embeds BuildList::_eval (reval.cc:727-737): identical to BuildTuple
with PyList_New / PyList_SET_ITEM. -/
def buildList (op : VarRegOpArgs) (regs : Regs) : Regs × List RcEvent :=
  let elems := (List.range op.arg).map
    (fun i => Option.getD (rget regs (List.getD op.regs i 0)) PyV.pyNone)
  (rset regs (List.getD op.regs op.arg 0) (some (PyV.list elems)), [])

/-! ## Frame lifetime (reval.cc:55-117) -/

/-- The strong references a RegisterFrame owns at destruction time:
its register file and the cached call_args tuple. -/
structure FrameRefs where
  registers : Regs
  call_args : Option PyV

/-- Embeds RegisterFrame::~RegisterFrame (reval.cc:114-117):

      delete [] registers;
      Py_XDECREF(call_args);

deleting the register array frees the array storage only — the
occupants of the slots receive no Py_DECREF — so the only refcount
event is the XDECREF of call_args. -/
def frameDestructEvents (f : FrameRefs) : List RcEvent := xdecref f.call_args

/-- needed_args in RegisterFrame::RegisterFrame (reval.cc:81-92):
co_argcount, minus one when the callee is a bound method (its self is
installed separately). -/
def neededArgs (co_argcount : Nat) (isMethod : Bool) : Nat :=
  if isMethod then co_argcount - 1 else co_argcount

/-- Embeds the argument-binding part of RegisterFrame::RegisterFrame
(reval.cc:94-111): with num_args = len(args) and num_def_args =
len(defaults), if num_args + num_def_args < needed_args it throws
TypeError (no frame is built, so nothing runs); otherwise it fills the
needed_args parameter slots in order, slot i taking args[i] when
i < num_args and defaults[i - num_args] otherwise. -/
def bindArgs (co_argcount : Nat) (isMethod : Bool) (args defs : List PyV) :
    Except Unit (List PyV) :=
  let needed := neededArgs co_argcount isMethod
  if args.length + defs.length < needed then Except.error ()
  else Except.ok ((List.range needed).map (fun i =>
    if i < args.length then List.getD args i PyV.pyNone
    else List.getD defs (i - args.length) PyV.pyNone))

/-! ## The dispatch loop (reval.cc:822-829, 856-1169) -/

/-- The instructions needed by the claims about whole-program runs.
pc and branch labels are instruction indices (see BranchOpArgs). -/
inductive Instr where
  | jumpAbsolute (label : Nat)
  | binaryAddSpec (reg_1 reg_2 reg_3 : Nat)
  | returnValue (reg_1 : Nat)

/-- The machine state of one Evaluator::eval invocation: `running`
carries the pc, the register file and Evaluator::total_count_;
`returned` is the catch of a thrown result (RETURN_VALUE);
`failed` is the catch of RException (eval returns NULL). -/
inductive MState where
  | running (pc : Nat) (regs : Regs) (totalCount : Nat)
  | returned (v : PyV)
  | failed

/-- Embeds Evaluator::collect_info (reval.cc:148-159): increment
total_count_; once it exceeds 10^9, dump status and throw
RException(PyExc_SystemError, "Execution entered infinite loop.").
NOTE: the only call site of collect_info inside the dispatch macro
_DEFINE_OP (reval.cc:822-825) is commented out in the source, so the
dispatch loop below never invokes this function. -/
def collect_info (totalCount : Nat) : Except Unit Nat :=
  let t := totalCount + 1
  if 1000000000 < t then Except.error () else Except.ok t

/-- One iteration of the threaded dispatch of Evaluator::eval: embeds
the _DEFINE_OP macro (reval.cc:822-825) — run the handler, then jump to
the label of the opcode at the new pc.  The collectInfo(opname) call in
the macro is commented out in the source, so total_count_ is not
touched.  JUMP_ABSOLUTE embeds JumpAbsolute::_eval (reval.cc:690-696);
BINARY_ADD embeds BinaryOpWithSpecialization<BINARY_ADD, PyNumber_Add,
IntegerOps::add> (reval.cc:1026); RETURN_VALUE embeds
ReturnValue::_eval (reval.cc:698-705): retain the result and throw it
out of the loop.  A pc outside the program is the BADCODE case. -/
def step (prog : List Instr) : MState → MState
  | MState.running pc regs tc =>
    match List.get? prog pc with
    | none => MState.failed
    | some (Instr.jumpAbsolute label) => MState.running label regs tc
    | some (Instr.binaryAddSpec r1 r2 r3) =>
      let r1v := rget regs r1
      let r2v := rget regs r2
      let fast : Option PyV :=
        match r1v, r2v with
        | some w, some v => IntegerOps.add w v
        | _, _ => none
      let res := match fast with
        | some v => some v
        | none => hostAdd r1v r2v
      MState.running (pc + 1) (rset regs r3 res) tc
    | some (Instr.returnValue r1) =>
      match rget regs r1 with
      | some v => MState.returned v
      | none => MState.failed
  | s => s

/-- n iterations of the dispatch loop. -/
def stepN (prog : List Instr) (n : Nat) (s : MState) : MState :=
  match n with
  | 0 => s
  | n + 1 => stepN prog n (step prog s)

/-- The register program equivalent to `while True: pass`: a single
JUMP_ABSOLUTE targeting itself. -/
def whileTrueProg : List Instr := [Instr.jumpAbsolute 0]

/-- The body of `def f(a, b=7): return a + b` as register code, with a
bound at register 0, b at register 1 and the temporary at register 2:
BINARY_ADD 0 1 -> 2; RETURN_VALUE 2. -/
def progAddReturn : List Instr :=
  [Instr.binaryAddSpec 0 1 2, Instr.returnValue 2]

/-- Concrete CALL_FUNCTION operands with na = 2 positionals and nk = 1
keyword pair: op->arg = 2 | (1 << 8) = 258; positional registers 10
and 11, keyword name/value registers 12 and 13, callee register 14,
destination register 15. -/
def kwExampleOp : VarRegOpArgs := ⟨258, [10, 11, 12, 13, 14, 15]⟩

/-- A register file whose slot i holds the distinct object i. -/
def kwExampleRegs : Regs := (List.range 16).map (fun i => some (PyV.obj i))

/-- Running refcount of the single value an event trace touches,
starting from count c: the list of successive counts after each event.
(Adequate for traces all of whose events concern one value, as in the
aliasing register writes of C4.) -/
def countsAlong (c : Int) : List RcEvent → List Int
  | [] => []
  | RcEvent.retain _ :: es => (c + 1) :: countsAlong (c + 1) es
  | RcEvent.release _ :: es => (c - 1) :: countsAlong (c - 1) es

/-! ## Arithmetic facts about the long model -/

theorem toU_cast (x : Int) : (toU x : Int) = x % 2^64 := by
  unfold toU
  rw [Int.toNat_of_nonneg (Int.emod_nonneg x (by norm_num))]

theorem toU_lt (x : Int) : toU x < 2^64 := by
  have h1 : x % (2:Int)^64 < 2^64 := Int.emod_lt_of_pos x (by norm_num)
  have h2 := toU_cast x
  omega

theorem le_iff_testBit63 (p : Nat) (h : p < 2^64) : 2^63 ≤ p ↔ p.testBit 63 = true := by
  rw [Nat.testBit_to_div_mod, decide_eq_true_iff]
  omega

theorem ofU_neg_iff (n : Nat) (h : n < 2^64) : ofU n < 0 ↔ 2^63 ≤ n := by
  unfold ofU; split <;> omega

theorem toU_ofU (n : Nat) (h : n < 2^64) : toU (ofU n) = n := by
  unfold toU ofU; split <;> omega

theorem inLong_ofU (n : Nat) (h : n < 2^64) : inLong (ofU n) := by
  unfold inLong ofU; split <;> constructor <;> omega

theorem lxor_neg_iff (x y : Int) :
    lxor x y < 0 ↔ ¬(2^63 ≤ toU x ↔ 2^63 ≤ toU y) := by
  have hx := toU_lt x
  have hy := toU_lt y
  have hxor : (toU x) ^^^ (toU y) < 2^64 := Nat.xor_lt_two_pow hx hy
  unfold lxor
  rw [ofU_neg_iff _ hxor, le_iff_testBit63 _ hxor, Nat.testBit_xor,
    le_iff_testBit63 _ hx, le_iff_testBit63 _ hy]
  cases (toU x).testBit 63 <;> cases (toU y).testBit 63 <;> simp

theorem toU_sign (x : Int) (h : inLong x) : 2^63 ≤ toU x ↔ x < 0 := by
  have hc := toU_cast x
  unfold inLong at h
  omega

/-- On two exact ints whose values fit in a long, the fast-path ADD
(reval.cc:227, macro at reval.cc:212-225) returns the boxed exact sum
when the sum fits in a long, and the null sentinel when it does not:
the sign-cross overflow check ((i^a)<0 && (i^b)<0) is exact for
addition. -/
theorem intOp_add_exact (a b : Int) (ha : inLong a) (hb : inLong b) :
    (inLong (a + b) →
      IntegerOps.add (PyV.int a) (PyV.int b) = some (PyV.int (a + b)))
    ∧ (¬ inLong (a + b) →
      IntegerOps.add (PyV.int a) (PyV.int b) = none) := by
  have hgoal : IntegerOps.add (PyV.int a) (PyV.int b)
      = (if lxor (ofU ((toU a + toU b) % 2^64)) a < 0
            ∧ lxor (ofU ((toU a + toU b) % 2^64)) b < 0
         then none
         else some (PyV.int (ofU ((toU a + toU b) % 2^64)))) := rfl
  set s : Nat := (toU a + toU b) % 2^64 with hs
  have hslt : s < 2^64 := Nat.mod_lt _ (by norm_num)
  have hscast : (s : Int) = ((toU a : Int) + (toU b : Int)) % 2^64 := by
    rw [hs]; push_cast; ring_nf
  have hca := toU_cast a
  have hcb := toU_cast b
  have h1 := lxor_neg_iff (ofU s) a
  have h2 := lxor_neg_iff (ofU s) b
  rw [toU_ofU s hslt] at h1 h2
  have hsa := toU_sign a ha
  have hsb := toU_sign b hb
  have hofU : ofU s = if s < 2^63 then (s : Int) else (s : Int) - 2^64 := rfl
  unfold inLong at ha hb
  constructor
  · intro hfit
    unfold inLong at hfit
    have hC : ¬(lxor (ofU s) a < 0 ∧ lxor (ofU s) b < 0) := by
      rw [h1, h2]
      rcases Nat.lt_or_ge s (2^63) with hcase | hcase
      · rw [if_pos hcase] at hofU; omega
      · rw [if_neg (Nat.not_lt.mpr hcase)] at hofU; omega
    have hval : ofU s = a + b := by
      rcases Nat.lt_or_ge s (2^63) with hcase | hcase
      · rw [if_pos hcase] at hofU; omega
      · rw [if_neg (Nat.not_lt.mpr hcase)] at hofU; omega
    rw [hgoal, if_neg hC, hval]
  · intro hfit
    unfold inLong at hfit
    have hC : lxor (ofU s) a < 0 ∧ lxor (ofU s) b < 0 := by
      rw [h1, h2]
      rcases Nat.lt_or_ge s (2^63) with hcase | hcase
      · rw [if_pos hcase] at hofU; omega
      · rw [if_neg (Nat.not_lt.mpr hcase)] at hofU; omega
    rw [hgoal, if_pos hC]

/-! ## Claim theorems -/

/-- C1: the claim says RegisterFrame destruction releases every
non-null register exactly once together with the cached call-args
tuple.  The destructor (reval.cc:114-117) only frees the register
array and XDECREFs call_args: for a frame holding the object 0 in a
register and a cached tuple, the event trace is exactly the release of
the tuple, and no release of the register's occupant occurs — the
register leaks, contradicting the claim (a code bug: spec sections 3,
4.7 and 8 all state every non-null register is released at frame
destruction). -/
theorem c1_frame_destructor_releases_only_call_args :
    frameDestructEvents ⟨[some (PyV.obj 0)], some (PyV.tup [])⟩
      = [RcEvent.release (PyV.tup [])]
    ∧ RcEvent.release (PyV.obj 0)
        ∉ frameDestructEvents ⟨[some (PyV.obj 0)], some (PyV.tup [])⟩ := by
  refine ⟨rfl, ?_⟩
  simp [frameDestructEvents, xdecref]

/-- C2: the claim says every handler releases the prior occupant of
each overwritten register, in particular BINARY_POWER must release the
prior occupant of reg_3, and BUILD_TUPLE must account for the prior
occupant of regs[n].  Evaluating the handlers (reval.cc:355-367 and
714-725) at concrete inputs shows the opposite: BinaryPower on
registers [obj 1, obj 2, obj 3] releases the occupant of reg_2 (obj 2)
and never releases obj 3, the overwritten occupant of reg_3; BuildTuple
on [int 5, obj 7] with destination register 1 performs no release at
all, leaking the overwritten obj 7 (a code bug the spec's design notes
themselves flag). -/
theorem c2_power_and_build_tuple_drop_destination_release :
    binaryPower (fun _ _ => some (PyV.obj 9)) ⟨0, 1, 2⟩
        [some (PyV.obj 1), some (PyV.obj 2), some (PyV.obj 3)]
      = ([some (PyV.obj 1), some (PyV.obj 2), some (PyV.obj 9)],
         [RcEvent.release (PyV.obj 2)])
    ∧ RcEvent.release (PyV.obj 3)
        ∉ (binaryPower (fun _ _ => some (PyV.obj 9)) ⟨0, 1, 2⟩
            [some (PyV.obj 1), some (PyV.obj 2), some (PyV.obj 3)]).2
    ∧ buildTuple ⟨1, [0, 1]⟩ [some (PyV.int 5), some (PyV.obj 7)]
      = ([some (PyV.int 5), some (PyV.tup [PyV.int 5])], [])
    ∧ RcEvent.release (PyV.obj 7)
        ∉ (buildTuple ⟨1, [0, 1]⟩ [some (PyV.int 5), some (PyV.obj 7)]).2 := by
  refine ⟨rfl, ?_, rfl, ?_⟩
  · simp [binaryPower, rget, rset, xdecref]
  · simp [buildTuple, rget, rset]

/-- C3 counterexample: the claim says every handler that receives a
null result from a generic Value-API operation transitions to the
Failing state.  The generic binary handler (BinaryOp, reval.cc:316-329)
with an external operator returning null instead stores the null into
destination register 2 and returns a `next` outcome — dispatch
continues, no failure. -/
theorem c3_null_result_stored_not_failing :
    binaryOp (fun _ _ => none) ⟨0, 1, 2⟩
        [some (PyV.int 1), some (PyV.int 2), some (PyV.obj 7)]
      = Outcome.next ([some (PyV.int 1), some (PyV.int 2), none],
          [RcEvent.release (PyV.obj 7)])
    ∧ binaryOp (fun _ _ => none) ⟨0, 1, 2⟩
        [some (PyV.int 1), some (PyV.int 2), some (PyV.obj 7)]
      ≠ Outcome.fail := by
  refine ⟨rfl, ?_⟩
  simp [binaryOp, rget, rset, xdecref]

/-- C3 (amended): BINARY_SUBSCR (reval.cc:388-390) and CALL_FUNCTION
(reval.cc:627-629) do transition to Failing on a null result of the
generic operation — RException is thrown, the frame is destroyed and
eval returns the error sentinel; but the generic binary-arithmetic
handler (BinaryOp) and the unary handler (UnaryOp) perform no null
check: they store the null result into the destination register and
dispatch continues. -/
theorem c3_amended_null_result_handling
    (objF : Option PyV → Option PyV → Option PyV)
    (objF1 : Option PyV → Option PyV)
    (getItem : Option PyV → Option PyV → Option PyV)
    (call : List (Option PyV) → Option (List (Option PyV × Option PyV)) → Option PyV)
    (op3 sop : RegOp3) (op2 : RegOp2) (vop : VarRegOpArgs) (regs : Regs)
    (hb : objF (rget regs op3.reg_1) (rget regs op3.reg_2) = none)
    (hu : objF1 (rget regs op2.reg_1) = none)
    (hfast : subscrFastPath (rget regs sop.reg_1) (rget regs sop.reg_2) = none)
    (hg : getItem (rget regs sop.reg_1) (rget regs sop.reg_2) = none)
    (hc : ∀ args kw, call args kw = none) :
    binaryOp objF op3 regs
      = Outcome.next (rset regs op3.reg_3 none, xdecref (rget regs op3.reg_3))
    ∧ unaryOp objF1 op2 regs
      = Outcome.next (rset regs op2.reg_2 none, xdecref (rget regs op2.reg_2))
    ∧ binarySubscr getItem sop regs = Outcome.fail
    ∧ callFunction call vop regs = Outcome.fail := by
  refine ⟨?_, ?_, ?_, ?_⟩
  · unfold binaryOp; rw [hb]
  · unfold unaryOp; rw [hu]
  · simp only [binarySubscr]
    rw [hfast, hg]
  · simp only [callFunction]
    rw [hc]

/-- Witness for c3_amended_null_result_handling at concrete inputs:
constant-null external operations on the register file
[some (int 1)]. -/
theorem c3_amended_null_result_handling_witness :
    binaryOp (fun _ _ => none) ⟨0, 1, 2⟩ [some (PyV.int 1)]
      = Outcome.next (rset [some (PyV.int 1)] 2 none,
          xdecref (rget [some (PyV.int 1)] 2))
    ∧ unaryOp (fun _ => none) ⟨0, 1⟩ [some (PyV.int 1)]
      = Outcome.next (rset [some (PyV.int 1)] 1 none,
          xdecref (rget [some (PyV.int 1)] 1))
    ∧ binarySubscr (fun _ _ => none) ⟨0, 0, 0⟩ [some (PyV.int 1)] = Outcome.fail
    ∧ callFunction (fun _ _ => none) ⟨0, []⟩ [some (PyV.int 1)] = Outcome.fail :=
  c3_amended_null_result_handling (fun _ _ => none) (fun _ => none)
    (fun _ _ => none) (fun _ _ => none)
    ⟨0, 1, 2⟩ ⟨0, 0, 0⟩ ⟨0, 1⟩ ⟨0, []⟩ [some (PyV.int 1)]
    rfl rfl rfl rfl (fun _ _ => rfl)

/-- C4 counterexample: the claim says both LOAD_FAST and STORE_FAST
retain the new value before releasing the old occupant when source and
destination alias.  StoreFast (reval.cc:512-520) with reg_1 = reg_2 = 0
on a register holding the sole strong reference (count 1) emits
release before retain, and the running count reaches 0 during the
write. -/
theorem c4_store_fast_transient_zero :
    (storeFast ⟨0, 0⟩ [some (PyV.obj 3)]).2
      = [RcEvent.release (PyV.obj 3), RcEvent.retain (PyV.obj 3)]
    ∧ (0 : Int) ∈ countsAlong 1 (storeFast ⟨0, 0⟩ [some (PyV.obj 3)]).2 := by
  refine ⟨rfl, ?_⟩
  decide

/-- C4 (amended): in the aliasing case reg_1 = reg_2 = r with the slot
holding a value v, LoadFast (reval.cc:502-510) performs retain v then
release v, so starting from the sole strong reference (count 1) the
running count never reaches zero; StoreFast (reval.cc:512-520) performs
release v then retain v, so the count transiently reaches zero during
the write. -/
theorem c4_amended_register_write_ordering (r : Nat) (regs : Regs) (v : PyV)
    (h : rget regs r = some v) :
    (loadFast ⟨r, r⟩ regs).2 = [RcEvent.retain v, RcEvent.release v]
    ∧ (0 : Int) ∉ countsAlong 1 (loadFast ⟨r, r⟩ regs).2
    ∧ (storeFast ⟨r, r⟩ regs).2 = [RcEvent.release v, RcEvent.retain v]
    ∧ (0 : Int) ∈ countsAlong 1 (storeFast ⟨r, r⟩ regs).2 := by
  unfold loadFast storeFast
  simp [increfOpt, xdecref, countsAlong, h]

/-- Witness for c4_amended_register_write_ordering at register 0 of
[some (obj 3)]. -/
theorem c4_amended_register_write_ordering_witness :
    (loadFast ⟨0, 0⟩ [some (PyV.obj 3)]).2
      = [RcEvent.retain (PyV.obj 3), RcEvent.release (PyV.obj 3)]
    ∧ (0 : Int) ∉ countsAlong 1 (loadFast ⟨0, 0⟩ [some (PyV.obj 3)]).2
    ∧ (storeFast ⟨0, 0⟩ [some (PyV.obj 3)]).2
      = [RcEvent.release (PyV.obj 3), RcEvent.retain (PyV.obj 3)]
    ∧ (0 : Int) ∈ countsAlong 1 (storeFast ⟨0, 0⟩ [some (PyV.obj 3)]).2 :=
  c4_amended_register_write_ordering 0 [some (PyV.obj 3)] (PyV.obj 3) rfl

/-- C5 counterexample: the claim says eval counts dispatched operations
(terminating with SystemError past 10^9).  Running five dispatch steps
of the while-True program leaves total_count_ at 0 — operations are not
counted, because the collectInfo call in _DEFINE_OP (reval.cc:822-825)
is commented out. -/
theorem c5_dispatch_does_not_count_ops :
    stepN whileTrueProg 5 (MState.running 0 [] 0) = MState.running 0 [] 0
    ∧ (0 : Nat) ≠ 5 := ⟨rfl, by decide⟩

/-- C5 (amended): Evaluator::collect_info does implement the ceiling —
it errors exactly when its incremented counter exceeds 10^9 — but the
dispatch loop never invokes it (the call in _DEFINE_OP is commented
out), so after any number n of dispatched operations of
`while True: pass` the machine is still dispatching at pc 0 with
total_count_ = 0: the SystemError is never raised and the loop never
terminates. -/
theorem c5_amended_no_operation_ceiling (n t : Nat) :
    stepN whileTrueProg n (MState.running 0 [] 0) = MState.running 0 [] 0
    ∧ (collect_info t = Except.error () ↔ 1000000000 < t + 1) := by
  constructor
  · induction n with
    | zero => rfl
    | succ n ih => exact ih
  · simp only [collect_info]
    split
    · simp_all
    · simp_all

/-- C6 counterexample: the claim says for DIVIDE, when the true result
fits in the native long range, the fast path equals the generic path.
At operands -7 and 2 the fast path computes on unsigned-converted
operands — (unsigned long)(-7) / 2 — and returns 9223372036854775804,
while the generic Python 2 division returns -4 (which fits in a long).
-/
theorem c6_divide_fast_path_diverges_from_generic :
    IntegerOps.div (PyV.int (-7)) (PyV.int 2)
      = some (PyV.int 9223372036854775804)
    ∧ genericDivide (-7) 2 = -4
    ∧ inLong (-4)
    ∧ (9223372036854775804 : Int) ≠ -4 :=
  ⟨rfl, by decide, by decide, by decide⟩

/-- C6 (amended): only for ADD (and its in-place twin, which reuses
IntegerOps::add) the claimed equivalence holds: for exact-int operands,
if the true sum fits in the native long range the fast path returns
exactly the boxed generic result, and if it does not fit the fast path
returns the null sentinel so the generic fallback runs.  (For SUBTRACT
and MULTIPLY the sign-cross check does not correctly detect overflow,
and DIVIDE/MODULO compute on unsigned-converted operands.) -/
theorem c6_amended_add_fast_path_exact (a b : Int)
    (ha : inLong a) (hb : inLong b) :
    (inLong (genericAdd a b) →
      IntegerOps.add (PyV.int a) (PyV.int b) = some (PyV.int (genericAdd a b)))
    ∧ (¬ inLong (genericAdd a b) →
      IntegerOps.add (PyV.int a) (PyV.int b) = none) := by
  unfold genericAdd
  exact intOp_add_exact a b ha hb

/-- Witness for c6_amended_add_fast_path_exact at 3 + 7. -/
theorem c6_amended_add_fast_path_exact_witness :
    inLong 3 ∧ inLong 7 ∧ inLong (genericAdd 3 7)
    ∧ IntegerOps.add (PyV.int 3) (PyV.int 7) = some (PyV.int (genericAdd 3 7)) :=
  ⟨by decide, by decide, by decide,
    (c6_amended_add_fast_path_exact 3 7 (by decide) (by decide)).1 (by decide)⟩

/-- C7: the claim says CALL_FUNCTION with nk > 0 builds a keyword dict
with exactly the nk pairs from regs[na .. na+2*nk).  The source loop
(reval.cc:610-614) runs `for (i = na; i < nk*2; i += 2)` — bound nk*2
instead of na + nk*2 — so with na = 2, nk = 1 it performs no iteration:
the built dict is empty while the operand layout prescribes one pair,
(registers[regs[2]], registers[regs[3]]) (a code bug).  The rest of the
handler behaves as claimed: a non-null call result is installed in
destination register regs[na+2*nk+1] = 15. -/
theorem c7_kwdict_loop_bound_bug :
    callKwdict kwExampleOp kwExampleRegs 2 1 = some []
    ∧ specKwPairs kwExampleOp kwExampleRegs 2 1
        = [(some (PyV.obj 12), some (PyV.obj 13))]
    ∧ (some [] : Option (List (Option PyV × Option PyV)))
        ≠ some [(some (PyV.obj 12), some (PyV.obj 13))]
    ∧ callFunction (fun _ _ => some (PyV.obj 99)) kwExampleOp kwExampleRegs
      = Outcome.next (rset kwExampleRegs 15 (some (PyV.obj 99))) := by
  refine ⟨?_, rfl, by simp, rfl⟩
  simp [callKwdict, kwLoop]

/-- C8: frame construction binds arguments as claimed
(reval.cc:81-111): with needed = arg_count minus one for a bound
method, if len(args) + len(defaults) < needed a TypeError is thrown
before any frame runs; otherwise exactly the needed parameter slots are
filled, slot i from args[i] when i < len(args) and from
defaults[i - len(args)] otherwise; concretely, for
def f(a, b=7): return a + b, running the bound registers through the
register code gives f(3) = 10 and f(3, 4) = 7. -/
theorem c8_frame_argument_binding (co : Nat) (m : Bool) (args defs : List PyV) :
    (args.length + defs.length < neededArgs co m →
      bindArgs co m args defs = Except.error ())
    ∧ (neededArgs co m ≤ args.length + defs.length →
      ∃ l, bindArgs co m args defs = Except.ok l
        ∧ l.length = neededArgs co m
        ∧ (∀ i, i < neededArgs co m → i < args.length →
            List.getD l i PyV.pyNone = List.getD args i PyV.pyNone)
        ∧ (∀ i, args.length ≤ i → i < neededArgs co m →
            List.getD l i PyV.pyNone = List.getD defs (i - args.length) PyV.pyNone))
    ∧ bindArgs 2 false [PyV.int 3] [PyV.int 7] = Except.ok [PyV.int 3, PyV.int 7]
    ∧ stepN progAddReturn 2
        (MState.running 0 [some (PyV.int 3), some (PyV.int 7), none] 0)
      = MState.returned (PyV.int 10)
    ∧ bindArgs 2 false [PyV.int 3, PyV.int 4] [PyV.int 7]
      = Except.ok [PyV.int 3, PyV.int 4]
    ∧ stepN progAddReturn 2
        (MState.running 0 [some (PyV.int 3), some (PyV.int 4), none] 0)
      = MState.returned (PyV.int 7) := by
  refine ⟨?_, ?_, rfl, rfl, rfl, rfl⟩
  · intro h
    simp only [bindArgs]
    rw [if_pos h]
  · intro h
    refine ⟨(List.range (neededArgs co m)).map (fun i =>
        if i < args.length then List.getD args i PyV.pyNone
        else List.getD defs (i - args.length) PyV.pyNone), ?_, ?_, ?_, ?_⟩
    · simp only [bindArgs]
      rw [if_neg (Nat.not_lt.mpr h)]
    · simp
    · intro i hi hia
      have hlen : i < (List.map (fun i =>
          if i < args.length then List.getD args i PyV.pyNone
          else List.getD defs (i - args.length) PyV.pyNone)
          (List.range (neededArgs co m))).length := by
        simpa using hi
      rw [List.getD_eq_getElem _ _ hlen, List.getElem_map, List.getElem_range,
        if_pos hia]
    · intro i hia hi
      have hlen : i < (List.map (fun i =>
          if i < args.length then List.getD args i PyV.pyNone
          else List.getD defs (i - args.length) PyV.pyNone)
          (List.range (neededArgs co m))).length := by
        simpa using hi
      rw [List.getD_eq_getElem _ _ hlen, List.getElem_map, List.getElem_range,
        if_neg (Nat.not_lt.mpr hia)]

/-- Witness for c8_frame_argument_binding: a call with too few
arguments raises TypeError, and f(3) against def f(a, b=7) binds
[3, 7]. -/
theorem c8_frame_argument_binding_witness :
    bindArgs 3 false [PyV.int 3] [] = Except.error ()
    ∧ bindArgs 2 false [PyV.int 3] [PyV.int 7] = Except.ok [PyV.int 3, PyV.int 7] := by
  have h1 := c8_frame_argument_binding 3 false [PyV.int 3] []
  have h2 := c8_frame_argument_binding 2 false [PyV.int 3] [PyV.int 7]
  exact ⟨h1.1 (by decide), h2.2.2.1⟩

/-- C9: BINARY_SUBSCR on an exact list of length L and an exact int i
with -L ≤ i < L stores the element at index i (i + L when i is
negative) into reg_3, retained; for an out-of-range integer index the
fast path misses, the generic item-get runs and its IndexError (null)
makes the handler throw, so eval returns the error sentinel. -/
theorem c9_binary_subscr_list_fast_path (l : List PyV) (i : Int)
    (op : RegOp3) (regs : Regs)
    (h1 : rget regs op.reg_1 = some (PyV.list l))
    (h2 : rget regs op.reg_2 = some (PyV.int i)) :
    (-(l.length : Int) ≤ i ∧ i < l.length →
      binarySubscr hostGetItem op regs
        = Outcome.next
            (rset regs op.reg_3
              (some (List.getD l (if i < 0 then i + l.length else i).toNat PyV.pyNone)),
             RcEvent.retain
                 (List.getD l (if i < 0 then i + l.length else i).toNat PyV.pyNone)
               :: xdecref (rget regs op.reg_3)))
    ∧ ((i < -(l.length : Int) ∨ (l.length : Int) ≤ i) →
      binarySubscr hostGetItem op regs = Outcome.fail) := by
  have hfast : subscrFastPath (rget regs op.reg_1) (rget regs op.reg_2)
      = (if 0 ≤ (if i < 0 then i + (l.length : Int) else i)
            ∧ (if i < 0 then i + (l.length : Int) else i) < (l.length : Int)
         then some (List.getD l (if i < 0 then i + (l.length : Int) else i).toNat PyV.pyNone)
         else none) := by
    rw [h1, h2]; rfl
  have hgen : hostGetItem (rget regs op.reg_1) (rget regs op.reg_2)
      = (if 0 ≤ (if i < 0 then i + (l.length : Int) else i)
            ∧ (if i < 0 then i + (l.length : Int) else i) < (l.length : Int)
         then some (List.getD l (if i < 0 then i + (l.length : Int) else i).toNat PyV.pyNone)
         else none) := by
    rw [h1, h2]; rfl
  have hcond : ∀ hc : -(l.length : Int) ≤ i ∧ i < l.length,
      0 ≤ (if i < 0 then i + (l.length : Int) else i)
        ∧ (if i < 0 then i + (l.length : Int) else i) < (l.length : Int) := by
    intro hc; split <;> omega
  constructor
  · intro hin
    simp only [binarySubscr]
    rw [hfast, if_pos (hcond hin)]
  · intro hout
    have hcond2 : ¬(0 ≤ (if i < 0 then i + (l.length : Int) else i)
        ∧ (if i < 0 then i + (l.length : Int) else i) < (l.length : Int)) := by
      split <;> omega
    simp only [binarySubscr]
    rw [hfast, if_neg hcond2, hgen, if_neg hcond2]

/-- Witness for c9_binary_subscr_list_fast_path: [10, 20, 30][-1]
yields 30 retained, and [10, 20][5] fails. -/
theorem c9_binary_subscr_list_fast_path_witness :
    binarySubscr hostGetItem ⟨0, 1, 2⟩
        [some (PyV.list [PyV.int 10, PyV.int 20, PyV.int 30]),
         some (PyV.int (-1)), none]
      = Outcome.next
          ([some (PyV.list [PyV.int 10, PyV.int 20, PyV.int 30]),
            some (PyV.int (-1)), some (PyV.int 30)],
           [RcEvent.retain (PyV.int 30)])
    ∧ binarySubscr hostGetItem ⟨0, 1, 2⟩
        [some (PyV.list [PyV.int 10, PyV.int 20]), some (PyV.int 5), none]
      = Outcome.fail := by
  have h1 := c9_binary_subscr_list_fast_path [PyV.int 10, PyV.int 20, PyV.int 30]
    (-1) ⟨0, 1, 2⟩
    [some (PyV.list [PyV.int 10, PyV.int 20, PyV.int 30]), some (PyV.int (-1)), none]
    rfl rfl
  have h2 := c9_binary_subscr_list_fast_path [PyV.int 10, PyV.int 20] 5 ⟨0, 1, 2⟩
    [some (PyV.list [PyV.int 10, PyV.int 20]), some (PyV.int 5), none]
    rfl rfl
  refine ⟨?_, h2.2 (by norm_num)⟩
  have := h1.1 (by norm_num)
  simpa using this

/-- C10: FOR_ITER (reval.cc:647-661) jumps to the exhaustion label
whenever PyIter_Next returns null, regardless of whether the host error
indicator was set by the call (the handler never reads it): the outcome
is a `next` at the label with registers untouched — reg_2 is written
only when a value is produced — and no error is surfaced out of eval at
that instruction. -/
theorem c10_for_iter_null_jumps_to_label (iterNext : Option PyV → IterNextRes)
    (op : BranchOpArgs) (pc : Nat) (regs : Regs) :
    ((iterNext (rget regs op.reg_1)).res = none →
      forIter iterNext op pc regs = Outcome.next ((op.label, regs), []))
    ∧ (∀ v, (iterNext (rget regs op.reg_1)).res = some v →
      forIter iterNext op pc regs
        = Outcome.next ((pc + 1, rset regs op.reg_2 (some v)),
            xdecref (rget regs op.reg_2))) := by
  constructor
  · intro h; unfold forIter; rw [h]
  · intro v h; unfold forIter; rw [h]

/-- Witness for c10_for_iter_null_jumps_to_label: an iter-next that
returns null with the host error indicator set still jumps to label 7
and leaves the registers unchanged. -/
theorem c10_for_iter_null_jumps_to_label_witness :
    forIter (fun _ => ⟨none, true⟩) ⟨0, 1, 7⟩ 3
        [some (PyV.obj 0), some (PyV.obj 1)]
      = Outcome.next ((7, [some (PyV.obj 0), some (PyV.obj 1)]), []) :=
  (c10_for_iter_null_jumps_to_label (fun _ => ⟨none, true⟩) ⟨0, 1, 7⟩ 3
    [some (PyV.obj 0), some (PyV.obj 1)]).1 rfl

end Falcon
